import Mathlib

/-!
Verification development for the `efinance` fund-data repository
(`src/efinance/fund/getter.py`).

The repository's per-endpoint functions decode one JSON response from a
remote endpoint and reshape it into a table; batch entry points fan a list
of fund codes out to concurrent worker tasks that append to a shared list
and update a shared progress bar; a file-download runner writes PDF
payloads to disk and removes zero-length results.

The embedding below models:
- decoded JSON payloads as an inductive `JVal`, with Python's indexing
  (`resp['Datas']` — `KeyError` for an absent key, `TypeError` for a
  non-dict), `len` (`TypeError` on `None`) and iteration (`TypeError` on
  `None`) semantics;
- DataFrames as a column list plus rows;
- the concurrent batch runner `get_base_info_muliti` as a fold of the
  worker body `start` over an arbitrary completion order (a permutation of
  the submitted fund codes), since each worker's shared-state update
  (append to `ss`, `bar.update`) is a single atomic commit;
- the download task `download_file` as a state transformer over a
  path-to-size map modelling the filesystem;
- Python's negative list slicing `lst[-k:]` used by `get_pdf_reports`.

The remote endpoint itself is out of scope (an external collaborator): a
fetcher is modelled from the decoded response onwards, and the per-code
fetch performed by a batch worker is a parameter `String → Option Series`
(`none` models the fetch raising — a transport or decode error, which
kills that worker thread before it touches the shared state).
-/

namespace EFinance

/-- A decoded JSON value (the result of `response.json()` in the source). -/
inductive JVal where
  | null
  | bool (b : Bool)
  | str (s : String)
  | int (n : Int)
  | arr (xs : List JVal)
  | obj (kvs : List (String × JVal))

/-- A Python exception class, as far as the modelled code can raise one. -/
inductive PyErr where
  | keyError
  | typeError
deriving DecidableEq

/-- Whether the value is Python's `None` (`json_response is None`). -/
def JVal.isNull : JVal → Bool
  | .null => true
  | _ => false

/-- Python subscription `v[k]` with a string key: a dict yields the value
or raises `KeyError`; any non-dict (including `None`) raises `TypeError`. -/
def JVal.getItem : JVal → String → Except PyErr JVal
  | .obj kvs, k =>
    match kvs.lookup k with
    | some v => .ok v
    | none => .error .keyError
  | _, _ => .error .typeError

/-- Python `len(v)`: defined for lists, strings and dicts; raises
`TypeError` otherwise (in particular on `None`). -/
def JVal.pyLen : JVal → Except PyErr Nat
  | .arr xs => .ok xs.length
  | .str s => .ok s.length
  | .obj kvs => .ok kvs.length
  | _ => .error .typeError

/-- Python iteration `for x in v`: a list yields its elements, a string its
characters, a dict its keys; anything else (including `None`) raises
`TypeError`. -/
def JVal.pyIter : JVal → Except PyErr (List JVal)
  | .arr xs => .ok xs
  | .str s => .ok (s.toList.map (fun c => .str (String.singleton c)))
  | .obj kvs => .ok (kvs.map (fun kv => .str kv.1))
  | _ => .error .typeError

/-- One row of the net-asset-value table built by `get_quote_history`:
the four fields extracted from one `stock` entry of `Datas`. -/
structure QuoteRow where
  date : JVal
  dwjz : JVal
  ljjz : JVal
  jzzzl : JVal

/-- A DataFrame, reduced to its column labels and rows. -/
structure QuoteFrame where
  cols : List String
  rows : List QuoteRow

/-- The fixed column labels of `get_quote_history`'s result
(`['日期', '单位净值', '累计净值', '涨跌幅']`). -/
def quoteColumns : List String := ["日期", "单位净值", "累计净值", "涨跌幅"]

/-- The row extraction of `get_quote_history`'s loop body: each of
`stock['FSRQ']`, `stock['DWJZ']`, `stock['LJJZ']`, `stock['JZZZL']` is a
Python subscription and may raise. -/
def extractQuoteRow (stock : JVal) : Except PyErr QuoteRow := do
  let date ← stock.getItem "FSRQ"
  let dwjz ← stock.getItem "DWJZ"
  let ljjz ← stock.getItem "LJJZ"
  let jzzzl ← stock.getItem "JZZZL"
  pure ⟨date, dwjz, ljjz, jzzzl⟩

/-- The fetcher `get_quote_history`, from the decoded `json_response` onwards.

`tonum` and `todate` model `pd.to_numeric(·, errors='coerce')` and
`pd.to_datetime(·, errors='coerce')`: library conversions that are total
(coercion never raises; unparseable cells become NaN/NaT), applied to the
`单位净值`, `累计净值` and `日期` columns after the frame is built.

Control flow of the source: if the response is `None`, the empty
four-column frame is returned; otherwise `datas = json_response['Datas']`
is a subscription (KeyError if absent, TypeError if the response is not a
dict), `len(datas)` may raise TypeError (e.g. `Datas: null`), an empty
`datas` yields the empty four-column frame, and otherwise one row per
entry is extracted. -/
def get_quote_history (tonum todate : JVal → JVal) (json_response : JVal) :
    Except PyErr QuoteFrame :=
  if json_response.isNull then .ok ⟨quoteColumns, []⟩
  else
    match json_response.getItem "Datas" with
    | .error e => .error e
    | .ok datas =>
      match datas.pyLen with
      | .error e => .error e
      | .ok n =>
        if n = 0 then .ok ⟨quoteColumns, []⟩
        else
          match datas.pyIter with
          | .error e => .error e
          | .ok stocks =>
            match stocks.mapM extractQuoteRow with
            | .error e => .error e
            | .ok rows =>
              .ok ⟨quoteColumns,
                rows.map (fun r =>
                  { r with dwjz := tonum r.dwjz, ljjz := tonum r.ljjz,
                           date := todate r.date })⟩

/-- One row of `get_realtime_increase_rate`'s table: `[code, name, rate,
gztime]`. -/
structure RateRow where
  code : JVal
  name : JVal
  rate : JVal
  gztime : JVal

/-- A DataFrame of realtime-increase rows. -/
structure RateFrame where
  cols : List String
  rows : List RateRow

/-- The fixed column labels of `get_realtime_increase_rate`'s result
(`['基金代码', '名称', '估算涨跌幅', '估算时间']`). -/
def rateColumns : List String := ["基金代码", "名称", "估算涨跌幅", "估算时间"]

/-- The loop body of `get_realtime_increase_rate`: four subscriptions per
`fund` entry. -/
def extractRateRow (fund : JVal) : Except PyErr RateRow := do
  let code ← fund.getItem "FCODE"
  let name ← fund.getItem "SHORTNAME"
  let rate ← fund.getItem "GSZZL"
  let gztime ← fund.getItem "GZTIME"
  pure ⟨code, name, rate, gztime⟩

/-- The fetcher `get_realtime_increase_rate`, from the decoded `json_response`
onwards: `data_list = json_response['Datas']` (a subscription), then
`for fund in data_list` (iteration — TypeError when `Datas` is null),
building one row per entry; an empty `Datas` list yields the empty
four-column frame. -/
def get_realtime_increase_rate (json_response : JVal) :
    Except PyErr RateFrame :=
  match json_response.getItem "Datas" with
  | .error e => .error e
  | .ok data_list =>
    match data_list.pyIter with
    | .error e => .error e
    | .ok funds =>
      match funds.mapM extractRateRow with
      | .error e => .error e
      | .ok rows => .ok ⟨rateColumns, rows⟩

/-! ### Table-driven select-and-rename (`get_inverst_postion`,
`get_period_change`)

The source pattern is `pd.DataFrame(stocks)[list(columns.keys())]
.rename(columns=columns)`: build a frame whose columns are the union of
the row dicts' keys, select exactly the rename table's keys (pandas raises
`KeyError` when a selected column is absent from the frame; rows missing a
key in an existing column hold NaN, modelled as `Option.none`), then
rename each selected column through the table. -/

/-- One payload row: a JSON object's key/value pairs. -/
abbrev PRow := List (String × JVal)

/-- A selected-and-renamed DataFrame: column labels plus, per row, one
`(column, cell)` pair per column, `none` modelling NaN for a key the row
lacks. -/
structure PFrame where
  cols : List String
  rows : List (List (String × Option JVal))

/-- The columns of `pd.DataFrame(stocks)`: the union of the rows' keys, in
order of first appearance. -/
def frameCols (stocks : List PRow) : List String :=
  stocks.foldl
    (fun acc r => acc ++ (r.map Prod.fst).filter (fun k => !(decide (k ∈ acc))))
    []

/-- The step `df[list(columns.keys())].rename(columns=columns)`: selection raises
`KeyError` unless every table key is a column of the frame; on success the
result's columns are the table's renamed values, in table order, and every
other payload column is dropped. -/
def selectRename (table : List (String × String)) (stocks : List PRow) :
    Except PyErr PFrame :=
  if (table.map Prod.fst).all (fun k => decide (k ∈ frameCols stocks)) then
    .ok ⟨table.map Prod.snd,
         stocks.map (fun r => table.map (fun kv => (kv.2, r.lookup kv.1)))⟩
  else .error .keyError

/-- The rename table of `get_inverst_postion` (vendor key → domain key). -/
def inverstPostionColumns : List (String × String) :=
  [("GPDM", "股票代码"), ("GPJC", "股票简称"),
   ("JZBL", "持仓占比"), ("PCTNVCHG", "较上期变化")]

/-- The rename table of `get_period_change`. -/
def periodChangeColumns : List (String × String) :=
  [("syl", "收益率"), ("avg", "同类平均"), ("rank", "同类排行"),
   ("sc", "同类总数"), ("title", "时间段")]

/-! ### The concurrent batch runner `get_base_info_muliti`

Each worker task runs `s = get_base_info_single(fund_code)` (a network
fetch that may raise), then commits `ss.append(s); bar.update();
bar.set_description(...)` to the shared state. A run is modelled as a fold
of the worker body `start` over the order in which workers commit — an
arbitrary permutation of the submitted fund codes, since
`multitasking.wait_for_tasks()` blocks until every worker thread has
terminated but promises nothing about relative order. A fetch result of
`none` models the fetch raising: the worker thread dies before touching
`ss` or the bar. -/

/-- A `pd.Series`, reduced to its index/value pairs. -/
abbrev Series := List (String × JVal)

/-- The shared `tqdm` progress bar: its configured total, its counter `n`
(starting at 0) and its description string. -/
structure Tqdm where
  total : Nat
  n : Nat
  desc : String

/-- The shared state of one `get_base_info_muliti` run: the list `ss` the
workers append to, and the progress bar. -/
structure MulitiState where
  ss : List Series
  bar : Tqdm

/-- The worker body `start(fund_code)`: fetch the fund's series; on
success append it to `ss`, increment the bar and publish the fund code; a
raising fetch (`none`) leaves the shared state untouched (the thread dies
before `ss.append`). -/
def start (fetch : String → Option Series) (st : MulitiState)
    (fund_code : String) : MulitiState :=
  match fetch fund_code with
  | none => st
  | some s =>
    { ss := st.ss ++ [s]
      bar := { st.bar with n := st.bar.n + 1,
                           desc := "processing " ++ fund_code } }

/-- The shared state at the start of a run: `ss = []`,
`bar = tqdm(total=len(fund_codes))`. -/
def mulitiInit (fund_codes : List String) : MulitiState :=
  ⟨[], ⟨fund_codes.length, 0, ""⟩⟩

/-- The batch runner `get_base_info_muliti`: every submitted fund code's worker commits (or
dies) in some order `order`, a permutation of `fund_codes`; the fold
yields the shared state observed after `wait_for_tasks()` returns. -/
def get_base_info_muliti (fetch : String → Option Series)
    (fund_codes order : List String) : MulitiState :=
  order.foldl (start fetch) (mulitiInit fund_codes)

/-- The sequence of shared states observed during a run: the initial state
followed by the state after each worker commit. -/
def mulitiTrace (fetch : String → Option Series) :
    MulitiState → List String → List MulitiState
  | st, [] => [st]
  | st, c :: cs => st :: mulitiTrace fetch (start fetch st c) cs

/-- The number of tasks that have reached a terminal state once
`multitasking.wait_for_tasks()` returns: every started worker thread
either completed or died on an exception, so all of them are terminal. -/
def tasksTerminal (order : List String) : Nat := order.length

/-! ### The dispatch of `get_base_info`

`get_base_info` dispatches on the runtime type of its argument:
`isinstance(fund_codes, str)` → `get_base_info_single`;
`hasattr(fund_codes, '__iter__')` → `get_base_info_muliti`; otherwise
`raise TypeError(...)`. -/

/-- A Python value as passed to `get_base_info`: enough constructors to
cover strings, lists, other iterables (tuples) and non-iterables. -/
inductive PyVal where
  | str (s : String)
  | list (xs : List PyVal)
  | tuple (xs : List PyVal)
  | int (n : Int)
  | none_

/-- The check `hasattr(v, '__iter__')`: true for strings, lists and tuples; false
for ints and `None`. -/
def PyVal.hasIterAttr : PyVal → Bool
  | .str _ => true
  | .list _ => true
  | .tuple _ => true
  | _ => false

/-- The elements produced by iterating the value (a string yields its
characters); used by `get_base_info_muliti`'s `for fund_code in
fund_codes` loop, which starts one worker task per element. -/
def PyVal.iterElems : PyVal → List PyVal
  | .str s => s.toList.map (fun c => .str (String.singleton c))
  | .list xs => xs
  | .tuple xs => xs
  | _ => []

/-- The outcome of `get_base_info`'s dispatch. -/
inductive BaseInfoDispatch where
  | single (code : String)
  | multi (codes : List PyVal)
  | typeError

/-- The entry point `get_base_info`: a string dispatches to the single-fund fetch, any
value with an `__iter__` attribute dispatches to the batch runner over its
elements, and anything else raises `TypeError`. -/
def get_base_info (fund_codes : PyVal) : BaseInfoDispatch :=
  match fund_codes with
  | .str s => .single s
  | v => if v.hasIterAttr then .multi v.iterElems else .typeError

/-- The number of worker tasks started by the dispatch: the single-fund
path runs synchronously (no worker task), the batch path starts one task
per iterated element, and the `TypeError` path raises before any task is
started. -/
def tasksStarted : BaseInfoDispatch → Nat
  | .multi codes => codes.length
  | _ => 0

/-! ### The file-download runner of `get_pdf_reports`

Each `download_file` task writes the downloaded payload to
`save_dir/fund_code/filename.pdf`, removes the file again when its size is
zero (returning before `bar.update(1)`), and otherwise advances the bar by
one. The filesystem is modelled as a map from path to file size; the
payload is modelled by its byte length `content` (the length of
`response.content`). -/

/-- The shared state of one `get_pdf_reports` run: the filesystem (path →
size of the file at that path), the bar counter and description, and the
number of download tasks that have run (task slots consumed). -/
structure DlState where
  fs : String → Option Nat
  bar_n : Nat
  bar_desc : String
  slots : Nat

/-- The destination path `save_dir/fund_code/filename + file_type` built
by `download_file`. -/
def pdfPath (save_dir fund_code filename file_type : String) : String :=
  save_dir ++ "/" ++ fund_code ++ "/" ++ filename ++ file_type

/-- The task body `download_file(fund_code, url, filename)`: publish the
fund code on the bar, write the payload to the destination path, and —
when the written file's size is zero — remove it and return without
updating the bar; otherwise `bar.update(1)`. Each run consumes one task
slot either way. (Directory creation is idempotent and not tracked.) -/
def download_file (save_dir fund_code : String) (st : DlState)
    (filename : String) (content : Nat) : DlState :=
  let path := pdfPath save_dir fund_code filename ".pdf"
  let written : String → Option Nat :=
    fun p => if p = path then some content else st.fs p
  if content = 0 then
    { fs := fun p => if p = path then none else written p
      bar_n := st.bar_n
      bar_desc := "processing " ++ fund_code
      slots := st.slots + 1 }
  else
    { fs := written
      bar_n := st.bar_n + 1
      bar_desc := "processing " ++ fund_code
      slots := st.slots + 1 }

/-- The empty state before any download task has run. -/
def dlInit : DlState := ⟨fun _ => none, 0, "", 0⟩

/-- The download phase of `get_pdf_reports`: one `download_file` task per
selected listing entry, each entry carrying its title (the filename) and
its payload length. -/
def get_pdf_reports_run (save_dir fund_code : String) (st : DlState)
    (jobs : List (String × Nat)) : DlState :=
  jobs.foldl (fun st j => download_file save_dir fund_code st j.1 j.2) st

/-! ### The listing selection of `get_pdf_reports`

The source iterates `json_response['Data'][-max_count:]`: Python's
negative slice `lst[s:]`, whose start index is `max(0, len + s)` for a
negative `s` and `min(len, s)` for a non-negative `s`. -/

/-- Python `xs[s:]` for an arbitrary integer `s`. -/
def pySliceFrom {α : Type} (xs : List α) (s : Int) : List α :=
  let n : Int := xs.length
  let begin_ : Int := if s < 0 then max 0 (n + s) else min n s
  xs.drop begin_.toNat

/-- The listing entries `get_pdf_reports` submits download tasks for:
`json_response['Data'][-max_count:]`. -/
def get_pdf_reports_selected {α : Type} (data : List α) (max_count : Int) :
    List α :=
  pySliceFrom data (-max_count)

/-! ### The `dates` handling of `get_industry_distributing` versus
`get_inverst_postion` / `get_types_persentage`

`get_industry_distributing` wraps only a *string* argument into a list
(`if isinstance(dates, str): dates = [dates]`) and then iterates `dates`,
so the default `dates=None` is iterated directly and raises `TypeError`
before the loop body issues any request. `get_inverst_postion` and
`get_types_persentage` instead wrap every non-list — including `None` —
(`if not isinstance(dates, List): dates = [dates]`), iterate `[None]`
once, and omit the `DATE` query parameter for a `None` date (the endpoint
then serves the latest public date). -/

/-- The runtime type of the `dates` argument: `None`, a string, or a list
of dates (`none` modelling a `None` element). -/
inductive PyDates where
  | none_
  | str (s : String)
  | list (xs : List (Option String))

/-- The normalization of `get_industry_distributing`: only a string is wrapped. -/
def get_industry_distributing_dates : PyDates → PyDates
  | .str s => .list [some s]
  | d => d

/-- The normalization of `get_inverst_postion` (`if not isinstance(dates,
List): dates = [dates]`): every non-list is wrapped into a one-element
list. -/
def get_inverst_postion_dates : PyDates → List (Option String)
  | .list xs => xs
  | .none_ => [none]
  | .str s => [some s]

/-- The normalization of `get_types_persentage`: textually identical to
`get_inverst_postion`'s. -/
def get_types_persentage_dates : PyDates → List (Option String)
  | .list xs => xs
  | .none_ => [none]
  | .str s => [some s]

/-- Iterating the (normalized) `dates` value: a list yields its elements,
a string its characters, and `None` raises `TypeError`. -/
def pyIterDates : PyDates → Except PyErr (List (Option String))
  | .none_ => .error .typeError
  | .str s => .ok (s.toList.map (fun c => some (String.singleton c)))
  | .list xs => .ok xs

/-- The query parameters `get_inverst_postion` builds for one date: the
fixed parameter list, plus `('DATE', date)` appended only when the date is
not `None`. -/
def get_inverst_postion_params (fund_code : String) (date : Option String) :
    List (String × String) :=
  let params :=
    [("FCODE", fund_code),
     ("MobileKey", "3EA024C2-7F22-408B-95E4-383D38160FB3"),
     ("OSVersion", "14.3"),
     ("appType", "ttjj"),
     ("appVersion", "6.2.8"),
     ("deviceid", "3EA024C2-7F22-408B-95E4-383D38160FB3"),
     ("passportid", "3061335960830820"),
     ("plat", "Iphone"),
     ("product", "EFund"),
     ("serverVersion", "6.2.8"),
     ("uToken", "6cfr1qdanf8nfhd6uc6u-hdj86f1f8kfe9f8k108.6"),
     ("userId", "f8d95b2330d84d9e804e7f28a802d809"),
     ("version", "6.2.8")]
  match date with
  | some d => params ++ [("DATE", d)]
  | none => params

/-- The sequence of requests `get_industry_distributing` issues, one per
iterated date (each request's `DATE` parameter present exactly when the
date is not `None`); iteration of the normalized `dates` value happens
before the first request, so a `TypeError` there means no request is ever
issued. -/
def get_industry_distributing_requests (fund_code : String)
    (dates : PyDates) : Except PyErr (List (String × Option String)) :=
  match pyIterDates (get_industry_distributing_dates dates) with
  | .error e => .error e
  | .ok ds => .ok (ds.map (fun date => (fund_code, date)))

/-! ## Helper lemmas -/

/-- Membership in the fold computing a frame's columns. -/
lemma mem_frameCols_foldl (stocks : List PRow) (acc : List String)
    (k : String) :
    k ∈ stocks.foldl
        (fun acc r =>
          acc ++ (r.map Prod.fst).filter (fun k => !(decide (k ∈ acc)))) acc
      ↔ k ∈ acc ∨ ∃ r ∈ stocks, k ∈ r.map Prod.fst := by
  induction stocks generalizing acc with
  | nil => simp
  | cons r rs ih =>
    rw [List.foldl_cons, ih]
    simp only [List.mem_append, List.mem_filter, Bool.not_eq_true',
      decide_eq_false_iff_not, List.mem_cons]
    constructor
    · rintro (((h | ⟨h, _⟩) | ⟨r', hr', hk⟩))
      · exact Or.inl h
      · exact Or.inr ⟨r, Or.inl rfl, h⟩
      · exact Or.inr ⟨r', Or.inr hr', hk⟩
    · rintro (h | ⟨r', (rfl | hr'), hk⟩)
      · exact Or.inl (Or.inl h)
      · by_cases hacc : k ∈ acc
        · exact Or.inl (Or.inl hacc)
        · exact Or.inl (Or.inr ⟨hk, hacc⟩)
      · exact Or.inr ⟨r', hr', hk⟩

/-- A key is a column of `pd.DataFrame(stocks)` exactly when some row
carries it. -/
lemma mem_frameCols {stocks : List PRow} {k : String} :
    k ∈ frameCols stocks ↔ ∃ r ∈ stocks, k ∈ r.map Prod.fst := by
  rw [frameCols, mem_frameCols_foldl]
  simp

/-! ## C8 -/

/-- C8: the table-driven vendor-key → domain-key renaming of
`get_inverst_postion` / `get_period_change`
(`pd.DataFrame(stocks)[list(columns.keys())].rename(columns=columns)`) is
total over payload keys: whenever every table key occurs in the payload,
selection-and-rename succeeds, the result's columns are exactly the
table's renamed values (every payload key outside the table is dropped),
and adding arbitrary extra keys to every row cannot make it fail; when it
does fail, the failure is caused by a table key absent from the payload,
never by a payload key. -/
theorem C8_rename_total (table : List (String × String)) (stocks : List PRow)
    (extra : PRow) :
    ((∀ k ∈ table.map Prod.fst, k ∈ frameCols stocks) →
      (∃ rows, selectRename table stocks = .ok ⟨table.map Prod.snd, rows⟩)
      ∧ ∃ rows, selectRename table (stocks.map (fun r => r ++ extra))
          = .ok ⟨table.map Prod.snd, rows⟩)
    ∧ ∀ e, selectRename table stocks = .error e →
        ∃ k ∈ table.map Prod.fst, k ∉ frameCols stocks := by
  constructor
  · intro h
    constructor
    · refine ⟨stocks.map (fun r => table.map (fun kv => (kv.2, r.lookup kv.1))), ?_⟩
      rw [selectRename, if_pos]
      rw [List.all_eq_true]
      intro k hk
      exact decide_eq_true (h k hk)
    · refine ⟨(stocks.map (fun r => r ++ extra)).map
        (fun r => table.map (fun kv => (kv.2, r.lookup kv.1))), ?_⟩
      rw [selectRename, if_pos]
      rw [List.all_eq_true]
      intro k hk
      refine decide_eq_true ?_
      rcases mem_frameCols.mp (h k hk) with ⟨r, hr, hkr⟩
      refine mem_frameCols.mpr ⟨r ++ extra, List.mem_map_of_mem _ hr, ?_⟩
      rw [List.map_append, List.mem_append]
      exact Or.inl hkr
  · intro e he
    by_contra hall
    push_neg at hall
    rw [selectRename, if_pos] at he
    · exact Except.noConfusion he
    · rw [List.all_eq_true]
      intro k hk
      exact decide_eq_true (hall k hk)

/-- A payload row carrying every `get_inverst_postion` table key plus one
extra vendor key. -/
def demoStock : PRow :=
  [("GPDM", JVal.str "600519"), ("GPJC", JVal.str "贵州茅台"),
   ("JZBL", JVal.str "9.36"), ("PCTNVCHG", JVal.str "0.12"),
   ("NEWTEXCH", JVal.str "1")]

/-- Witness for C8: the `get_inverst_postion` rename table applied to a
payload row that carries all four table keys and one extra key. -/
theorem C8_rename_total_witness :
    (∀ k ∈ inverstPostionColumns.map Prod.fst, k ∈ frameCols [demoStock])
    ∧ ∃ rows, selectRename inverstPostionColumns [demoStock]
        = .ok ⟨inverstPostionColumns.map Prod.snd, rows⟩ :=
  ⟨by decide, ((C8_rename_total inverstPostionColumns [demoStock] []).1
    (by decide)).1⟩

/-! ## C3 -/

/-- Counterexample to C3: on a well-formed response whose `Datas` field is
null — a response the claim says must yield an empty frame —
`get_quote_history` raises `TypeError` (`len(None)`) instead of returning
the empty four-column frame, and `get_realtime_increase_rate` raises
`TypeError` as well (`for fund in None`). -/
theorem C3_counterexample :
    get_quote_history id id (JVal.obj [("Datas", JVal.null)])
        = .error PyErr.typeError
    ∧ get_quote_history id id (JVal.obj [("Datas", JVal.null)])
        ≠ .ok ⟨quoteColumns, []⟩
    ∧ get_realtime_increase_rate (JVal.obj [("Datas", JVal.null)])
        = .error PyErr.typeError := by
  refine ⟨rfl, fun h => ?_, rfl⟩
  exact nomatch h

/-- C3, amended: the fetchers return an empty frame only for the no-data
shapes they actually test for — `get_quote_history` when the whole decoded
response is `None` or when `Datas` is an empty list, and
`get_realtime_increase_rate` when `Datas` is an empty list; in both
fetchers a null `Datas` raises `TypeError` (`len(None)` in the former,
`for fund in None` in the latter) and an absent `Datas` key raises
`KeyError`. -/
theorem C3_no_data_amended :
    (∀ tonum todate : JVal → JVal,
      get_quote_history tonum todate JVal.null = .ok ⟨quoteColumns, []⟩)
    ∧ (∀ (tonum todate : JVal → JVal) (kvs : List (String × JVal)),
        kvs.lookup "Datas" = some (JVal.arr []) →
        get_quote_history tonum todate (JVal.obj kvs)
          = .ok ⟨quoteColumns, []⟩)
    ∧ (∀ kvs : List (String × JVal),
        kvs.lookup "Datas" = some (JVal.arr []) →
        get_realtime_increase_rate (JVal.obj kvs) = .ok ⟨rateColumns, []⟩)
    ∧ (∀ (tonum todate : JVal → JVal) (kvs : List (String × JVal)),
        kvs.lookup "Datas" = some JVal.null →
        get_quote_history tonum todate (JVal.obj kvs)
          = .error PyErr.typeError)
    ∧ (∀ kvs : List (String × JVal),
        kvs.lookup "Datas" = some JVal.null →
        get_realtime_increase_rate (JVal.obj kvs) = .error PyErr.typeError)
    ∧ (∀ (tonum todate : JVal → JVal) (kvs : List (String × JVal)),
        kvs.lookup "Datas" = none →
        get_quote_history tonum todate (JVal.obj kvs)
          = .error PyErr.keyError)
    ∧ ∀ kvs : List (String × JVal),
        kvs.lookup "Datas" = none →
        get_realtime_increase_rate (JVal.obj kvs) = .error PyErr.keyError := by
  refine ⟨fun tonum todate => rfl, fun tonum todate kvs h => ?_,
    fun kvs h => ?_, fun tonum todate kvs h => ?_, fun kvs h => ?_,
    fun tonum todate kvs h => ?_, fun kvs h => ?_⟩
  · simp [get_quote_history, JVal.isNull, JVal.getItem, h, JVal.pyLen]
  · simp [get_realtime_increase_rate, JVal.getItem, h, JVal.pyIter,
      List.mapM, List.mapM.loop]
    rfl
  · simp [get_quote_history, JVal.isNull, JVal.getItem, h, JVal.pyLen]
  · simp [get_realtime_increase_rate, JVal.getItem, h, JVal.pyIter]
  · simp [get_quote_history, JVal.isNull, JVal.getItem, h]
  · simp [get_realtime_increase_rate, JVal.getItem, h]

/-- Witness for C3 (amended): concretely, a response whose `Datas` field
is the empty list yields the empty frames, one whose `Datas` field is null
raises `TypeError`, and one without a `Datas` key raises `KeyError`. -/
theorem C3_no_data_amended_witness :
    ([("Datas", JVal.arr [])] : List (String × JVal)).lookup "Datas"
        = some (JVal.arr [])
    ∧ get_quote_history id id (JVal.obj [("Datas", JVal.arr [])])
        = .ok ⟨quoteColumns, []⟩
    ∧ get_realtime_increase_rate (JVal.obj [("Datas", JVal.arr [])])
        = .ok ⟨rateColumns, []⟩
    ∧ ([("Datas", JVal.null)] : List (String × JVal)).lookup "Datas"
        = some JVal.null
    ∧ get_quote_history id id (JVal.obj [("Datas", JVal.null)])
        = .error PyErr.typeError
    ∧ get_realtime_increase_rate (JVal.obj [("Datas", JVal.null)])
        = .error PyErr.typeError
    ∧ ([] : List (String × JVal)).lookup "Datas" = none
    ∧ get_quote_history id id (JVal.obj []) = .error PyErr.keyError
    ∧ get_realtime_increase_rate (JVal.obj []) = .error PyErr.keyError :=
  ⟨rfl, C3_no_data_amended.2.1 id id _ rfl, C3_no_data_amended.2.2.1 _ rfl,
   rfl, C3_no_data_amended.2.2.2.1 id id _ rfl,
   C3_no_data_amended.2.2.2.2.1 _ rfl,
   rfl, C3_no_data_amended.2.2.2.2.2.1 id id _ rfl,
   C3_no_data_amended.2.2.2.2.2.2 _ rfl⟩

/-! ## C1 -/

/-- Each worker commit grows the shared list by at most one entry. -/
lemma start_ss_length_le (fetch : String → Option Series) (st : MulitiState)
    (c : String) :
    (start fetch st c).ss.length ≤ st.ss.length + 1 := by
  cases h : fetch c <;> simp [start, h]

/-- Folding the worker body over a commit order grows the shared list by
at most one entry per commit. -/
lemma foldl_start_ss_length (fetch : String → Option Series) :
    ∀ (l : List String) (st : MulitiState),
      ((l.foldl (start fetch) st).ss).length ≤ st.ss.length + l.length := by
  intro l
  induction l with
  | nil => intro st; simp
  | cons c cs ih =>
    intro st
    rw [List.foldl_cons]
    have h1 := ih (start fetch st c)
    have h2 := start_ss_length_le fetch st c
    simp only [List.length_cons]
    omega

/-- C1: however the concurrent workers of `get_base_info_muliti`
interleave (any commit order that is a permutation of the submitted fund
codes), each worker appends exactly one series for its fund code or — when
its fetch raises — none at all, so the aggregate list `ss` never holds
more entries than there are submitted fund codes. -/
theorem C1_aggregate_bound (fetch : String → Option Series)
    (fund_codes order : List String) (h : order.Perm fund_codes) :
    (get_base_info_muliti fetch fund_codes order).ss.length
        ≤ fund_codes.length
    ∧ ∀ (st : MulitiState) (c : String),
        (start fetch st c).ss = st.ss
        ∨ ∃ s, fetch c = some s ∧ (start fetch st c).ss = st.ss ++ [s] := by
  constructor
  · have h1 := foldl_start_ss_length fetch order (mulitiInit fund_codes)
    rw [get_base_info_muliti]
    have hlen := h.length_eq
    have h0 : (mulitiInit fund_codes).ss.length = 0 := rfl
    omega
  · intro st c
    cases hc : fetch c with
    | none => exact Or.inl (by simp [start, hc])
    | some s => exact Or.inr ⟨s, rfl, by simp [start, hc]⟩

/-- Witness for C1: a two-code batch whose fetches both succeed. -/
theorem C1_aggregate_bound_witness :
    (["000001", "000002"] : List String).Perm ["000001", "000002"]
    ∧ (get_base_info_muliti (fun c => some [("基金代码", JVal.str c)])
        ["000001", "000002"] ["000001", "000002"]).ss.length ≤ 2 :=
  ⟨List.Perm.refl _,
   (C1_aggregate_bound (fun c => some [("基金代码", JVal.str c)])
     ["000001", "000002"] ["000001", "000002"] (List.Perm.refl _)).1⟩

/-! ## C2 -/

/-- A worker commit never decreases the shared bar counter. -/
lemma start_bar_le (fetch : String → Option Series) (st : MulitiState)
    (c : String) :
    st.bar.n ≤ (start fetch st c).bar.n := by
  cases h : fetch c <;> simp [start, h]

/-- A worker commit advances the bar exactly when its fetch succeeded. -/
lemma start_bar_n (fetch : String → Option Series) (st : MulitiState)
    (c : String) :
    (start fetch st c).bar.n
      = st.bar.n + (if (fetch c).isSome then 1 else 0) := by
  cases h : fetch c <;> simp [start, h]

/-- Folding the worker body adds one to the bar per successful fetch. -/
lemma foldl_start_bar_n (fetch : String → Option Series) :
    ∀ (l : List String) (st : MulitiState),
      ((l.foldl (start fetch) st).bar.n)
        = st.bar.n + l.countP (fun c => (fetch c).isSome) := by
  intro l
  induction l with
  | nil => intro st; simp
  | cons c cs ih =>
    intro st
    rw [List.foldl_cons, ih, start_bar_n, List.countP_cons]
    cases h : fetch c
    · simp [h]
    · simp [h]
      omega

/-- The trace of a run starts at the initial state. -/
lemma mulitiTrace_head (fetch : String → Option Series) (st : MulitiState)
    (l : List String) :
    (mulitiTrace fetch st l).head? = some st := by
  cases l <;> rfl

/-- The bar counter is non-decreasing along every run trace. -/
lemma mulitiTrace_chain (fetch : String → Option Series) :
    ∀ (l : List String) (st : MulitiState),
      List.Chain' (fun a b => a.bar.n ≤ b.bar.n) (mulitiTrace fetch st l) := by
  intro l
  induction l with
  | nil => intro st; simp [mulitiTrace]
  | cons c cs ih =>
    intro st
    rw [mulitiTrace, List.chain'_cons']
    refine ⟨fun b hb => ?_, ih (start fetch st c)⟩
    rw [mulitiTrace_head] at hb
    cases hb
    exact start_bar_le fetch st c

/-- Every state on a run trace has a bar counter bounded by the starting
counter plus the number of remaining commits. -/
lemma mulitiTrace_mem_bar (fetch : String → Option Series) :
    ∀ (l : List String) (st st' : MulitiState),
      st' ∈ mulitiTrace fetch st l → st'.bar.n ≤ st.bar.n + l.length := by
  intro l
  induction l with
  | nil =>
    intro st st' h
    simp [mulitiTrace] at h
    simp [h]
  | cons c cs ih =>
    intro st st' h
    rw [mulitiTrace] at h
    rcases List.mem_cons.mp h with rfl | h
    · simp
    · have h1 := ih (start fetch st c) st' h
      have h2 := start_bar_le fetch st c
      have h3 := start_bar_n fetch st c
      simp only [List.length_cons]
      cases hc : fetch c <;> rw [hc] at h3 <;> simp at h3 <;> omega

/-- Counterexample to C2: the fetch for the second of two submitted codes
raises (a transport/decode error — the error taxonomy the design allows),
so its worker dies without touching the bar; after
`multitasking.wait_for_tasks()` returns, both tasks reached a terminal
state but the bar counter is 1, not 2. -/
theorem C2_counterexample :
    (get_base_info_muliti
        (fun c => if c = "000002" then none
          else some [("基金代码", JVal.str c)])
        ["000001", "000002"] ["000001", "000002"]).bar.n = 1
    ∧ tasksTerminal ["000001", "000002"] = 2
    ∧ (get_base_info_muliti
        (fun c => if c = "000002" then none
          else some [("基金代码", JVal.str c)])
        ["000001", "000002"] ["000001", "000002"]).bar.n
        ≠ tasksTerminal ["000001", "000002"] := by
  refine ⟨rfl, rfl, ?_⟩
  intro h
  rw [show (get_base_info_muliti
      (fun c => if c = "000002" then none else some [("基金代码", JVal.str c)])
      ["000001", "000002"] ["000001", "000002"]).bar.n = 1 from rfl] at h
  exact absurd h (by decide)

/-- C2, amended: during any run of `get_base_info_muliti` the shared bar
counter is monotonically non-decreasing and never exceeds the number of
submitted fund codes, and after the run returns it equals the number of
workers whose fetch completed successfully — a worker whose fetch raises
reaches a terminal state without advancing the counter, so the counter can
fall short of the terminal-task count. -/
theorem C2_progress_amended (fetch : String → Option Series)
    (fund_codes order : List String) (h : order.Perm fund_codes) :
    List.Chain' (fun a b => a.bar.n ≤ b.bar.n)
      (mulitiTrace fetch (mulitiInit fund_codes) order)
    ∧ (∀ st ∈ mulitiTrace fetch (mulitiInit fund_codes) order,
        st.bar.n ≤ fund_codes.length)
    ∧ (get_base_info_muliti fetch fund_codes order).bar.n
        = order.countP (fun c => (fetch c).isSome) := by
  refine ⟨mulitiTrace_chain fetch order (mulitiInit fund_codes),
    fun st hst => ?_, ?_⟩
  · have h1 := mulitiTrace_mem_bar fetch order (mulitiInit fund_codes) st hst
    have hlen := h.length_eq
    simp [mulitiInit] at h1
    omega
  · rw [get_base_info_muliti, foldl_start_bar_n]
    simp [mulitiInit]

/-- Witness for C2 (amended): a two-code batch whose fetches both succeed
ends with the counter equal to the number of successful fetches. -/
theorem C2_progress_amended_witness :
    (["000001", "000002"] : List String).Perm ["000001", "000002"]
    ∧ (get_base_info_muliti (fun c => some [("基金代码", JVal.str c)])
        ["000001", "000002"] ["000001", "000002"]).bar.n
        = (["000001", "000002"] : List String).countP
            (fun c => (some ([("基金代码", JVal.str c)] : Series)).isSome) :=
  ⟨List.Perm.refl _,
   (C2_progress_amended (fun c => some [("基金代码", JVal.str c)])
     ["000001", "000002"] ["000001", "000002"] (List.Perm.refl _)).2.2⟩

/-! ## C4 -/

/-- C4: whatever the filesystem held before, a `download_file` task whose
downloaded payload has zero length leaves no file at its destination path
— the just-written file is removed before the task returns. -/
theorem C4_zero_length_removed (save_dir fund_code : String) (st : DlState)
    (filename : String) :
    (download_file save_dir fund_code st filename 0).fs
      (pdfPath save_dir fund_code filename ".pdf") = none := by
  simp [download_file]

/-! ## C5 -/

/-- Folding the download task over a job list counts kept files on the bar
and consumes one slot per job. -/
lemma foldl_download_counters (save_dir fund_code : String) :
    ∀ (jobs : List (String × Nat)) (st : DlState),
      (get_pdf_reports_run save_dir fund_code st jobs).bar_n
          = st.bar_n + jobs.countP (fun j => decide (j.2 ≠ 0))
      ∧ (get_pdf_reports_run save_dir fund_code st jobs).slots
          = st.slots + jobs.length := by
  intro jobs
  induction jobs with
  | nil => intro st; simp [get_pdf_reports_run]
  | cons j js ih =>
    intro st
    have hrest := ih (download_file save_dir fund_code st j.1 j.2)
    have hbar : (download_file save_dir fund_code st j.1 j.2).bar_n
        = st.bar_n + (if j.2 = 0 then 0 else 1) := by
      by_cases h : j.2 = 0 <;> simp [download_file, h]
    have hslots : (download_file save_dir fund_code st j.1 j.2).slots
        = st.slots + 1 := by
      by_cases h : j.2 = 0 <;> simp [download_file, h]
    have hcount : (j :: js).countP (fun j => decide (j.2 ≠ 0))
        = js.countP (fun j => decide (j.2 ≠ 0))
          + (if j.2 = 0 then 0 else 1) := by
      rw [List.countP_cons]
      by_cases h : j.2 = 0 <;> simp [h]
    have hfold : get_pdf_reports_run save_dir fund_code st (j :: js)
        = get_pdf_reports_run save_dir fund_code
            (download_file save_dir fund_code st j.1 j.2) js := rfl
    refine ⟨?_, ?_⟩
    · rw [hfold, hrest.1, hbar, hcount]
      omega
    · rw [hfold, hrest.2, hslots, List.length_cons]
      omega

/-- C5: over any job list, the download runner's bar counter ends equal to
the number of jobs whose payload was nonzero (the files kept on disk),
every job — kept or deleted — consumes exactly one task slot, and a
single task advances the bar by one exactly when its payload is nonzero
and never otherwise. -/
theorem C5_progress_per_kept (save_dir fund_code : String)
    (jobs : List (String × Nat)) :
    (get_pdf_reports_run save_dir fund_code dlInit jobs).bar_n
        = jobs.countP (fun j => decide (j.2 ≠ 0))
    ∧ (get_pdf_reports_run save_dir fund_code dlInit jobs).slots
        = jobs.length
    ∧ ∀ (st : DlState) (filename : String) (content : Nat),
        (download_file save_dir fund_code st filename content).bar_n
            = st.bar_n + (if content = 0 then 0 else 1)
        ∧ (download_file save_dir fund_code st filename content).slots
            = st.slots + 1 := by
  have h := foldl_download_counters save_dir fund_code jobs dlInit
  have h0 : dlInit.bar_n = 0 := rfl
  have h1 : dlInit.slots = 0 := rfl
  refine ⟨by omega, by omega, fun st filename content => ?_⟩
  by_cases hc : content = 0 <;> simp [download_file, hc]

/-! ## C6 -/

/-- Counterexample to C6: with `max_count = 0` the slice
`json_response['Data'][-max_count:]` is `lst[0:]`, the whole listing, so
`get_pdf_reports` submits a download task for every entry — two tasks for
a two-entry listing — not for at most `max_count = 0` entries. -/
theorem C6_counterexample :
    get_pdf_reports_selected ["report1", "report2"] (0 : Int)
        = ["report1", "report2"]
    ∧ ¬ ((get_pdf_reports_selected ["report1", "report2"] (0 : Int)).length
        ≤ 0) := by
  constructor
  · rfl
  · intro h
    rw [show (get_pdf_reports_selected ["report1", "report2"]
        (0 : Int)).length = 2 from rfl] at h
    omega

/-- C6, amended: for every caller-specified `max_count ≥ 1` (the default
is 12), `get_pdf_reports` submits download tasks for exactly the last
`min max_count len` entries of the listing, in listing order, hence for at
most `max_count` entries; for `max_count = 0` the Python slice
`[-max_count:]` degenerates to the whole listing, as the counterexample
shows. -/
theorem C6_selected_amended {α : Type} (data : List α) (max_count : Int)
    (h : 1 ≤ max_count) :
    get_pdf_reports_selected data max_count
        = data.drop (data.length - min max_count.toNat data.length)
    ∧ (get_pdf_reports_selected data max_count).length
        = min max_count.toNat data.length
    ∧ (get_pdf_reports_selected data max_count).length ≤ max_count.toNat := by
  have hdef : get_pdf_reports_selected data max_count
      = data.drop ((if (-max_count) < 0 then
          max 0 ((data.length : Int) + (-max_count))
        else min (data.length : Int) (-max_count)).toNat) := rfl
  have hstart : (if (-max_count) < 0 then
        max 0 ((data.length : Int) + (-max_count))
      else min (data.length : Int) (-max_count)).toNat
      = data.length - min max_count.toNat data.length := by
    rw [if_pos (by omega)]
    omega
  rw [hdef, hstart]
  refine ⟨rfl, ?_, ?_⟩ <;> (rw [List.length_drop]; omega)

/-- The ten-entry demo listing of the specification's scenario. -/
def demoListing : List String :=
  ["r01", "r02", "r03", "r04", "r05", "r06", "r07", "r08", "r09", "r10"]

/-- Witness for C6 (amended): `max_count = 3` over a ten-entry listing
selects exactly its last three entries. -/
theorem C6_selected_amended_witness :
    (1 : Int) ≤ 3
    ∧ get_pdf_reports_selected demoListing (3 : Int)
        = demoListing.drop
            (demoListing.length - min (3 : Int).toNat demoListing.length) :=
  ⟨by decide, (C6_selected_amended demoListing 3 (by decide)).1⟩

/-! ## C7 -/

/-- Counterexample to C7: a tuple of fund codes is an argument of invalid
identifier type (the documented contract admits a string or a list of
strings), yet `get_base_info` does not raise `TypeError`: a tuple has an
`__iter__` attribute, so the call dispatches to the batch runner. -/
theorem C7_counterexample :
    get_base_info (PyVal.tuple [PyVal.str "000001"])
        = BaseInfoDispatch.multi [PyVal.str "000001"]
    ∧ get_base_info (PyVal.tuple [PyVal.str "000001"])
        ≠ BaseInfoDispatch.typeError := by
  refine ⟨rfl, fun h => ?_⟩
  exact nomatch h

/-- C7, amended: `get_base_info` returns the single-fund result for a
string, dispatches any argument with an `__iter__` attribute — a list, but
equally a tuple or other iterable — to the batch runner over its elements,
and raises `TypeError`, synchronously and before any worker task is
started, exactly for non-iterable non-string arguments. -/
theorem C7_dispatch_amended :
    (∀ s : String, get_base_info (PyVal.str s) = .single s
        ∧ tasksStarted (get_base_info (PyVal.str s)) = 0)
    ∧ (∀ xs : List PyVal, get_base_info (PyVal.list xs) = .multi xs
        ∧ tasksStarted (get_base_info (PyVal.list xs)) = xs.length)
    ∧ ∀ v : PyVal, v.hasIterAttr = false →
        get_base_info v = .typeError
        ∧ tasksStarted (get_base_info v) = 0 := by
  refine ⟨fun s => ⟨rfl, rfl⟩, fun xs => ⟨rfl, by simp [get_base_info,
    PyVal.hasIterAttr, PyVal.iterElems, tasksStarted]⟩, fun v hv => ?_⟩
  cases v with
  | str s => exact absurd hv (by simp [PyVal.hasIterAttr])
  | list xs => exact absurd hv (by simp [PyVal.hasIterAttr])
  | tuple xs => exact absurd hv (by simp [PyVal.hasIterAttr])
  | int n => exact ⟨rfl, rfl⟩
  | none_ => exact ⟨rfl, rfl⟩

/-- Witness for C7 (amended): an integer argument has no `__iter__`
attribute and is rejected with `TypeError` before any task starts. -/
theorem C7_dispatch_amended_witness :
    (PyVal.int 0).hasIterAttr = false
    ∧ get_base_info (PyVal.int 0) = BaseInfoDispatch.typeError
    ∧ tasksStarted (get_base_info (PyVal.int 0)) = 0 :=
  ⟨rfl, (C7_dispatch_amended.2.2 (PyVal.int 0) rfl).1,
   (C7_dispatch_amended.2.2 (PyVal.int 0) rfl).2⟩

/-! ## C10 -/

/-- C10: `get_industry_distributing` wraps only a string `dates` argument
into a list, so the default `dates=None` is iterated directly and raises
`TypeError` before any request is issued — while `get_inverst_postion` and
`get_types_persentage` normalize `None` to the one-element list `[None]`
and, for a `None` date, build their request without a `DATE` parameter
(fetching the latest public date). -/
theorem C10_dates_divergence :
    (∀ fund_code : String,
        get_industry_distributing_requests fund_code PyDates.none_
          = .error PyErr.typeError)
    ∧ get_inverst_postion_dates PyDates.none_ = [none]
    ∧ get_types_persentage_dates PyDates.none_ = [none]
    ∧ ∀ fund_code : String,
        "DATE" ∉ (get_inverst_postion_params fund_code none).map Prod.fst := by
  refine ⟨fun fund_code => rfl, rfl, rfl, fun fund_code => ?_⟩
  intro h
  simp [get_inverst_postion_params] at h

end EFinance
